import Mathlib

/-!
Verification of the hedge-vpn-sync reconciliation engine.

The definitions below are a shallow embedding of the Python sources:
timestamps and their normalization (src/vpn/utils.py), the set-diff
classifier, action executor and run logging of VPNSynchronizer.sync
(src/vpn/sync.py), and the BigQuery write paths it calls
(src/vpn/bigquery_operations.py).  File keys are strings (relative
paths); normalized timestamps used by the classifier are integers.
Cloud calls are replaced by explicit success/failure oracles carried in
a dependency record; the happy path of a cloud call that the code does
not inspect is modelled as success.
-/

deriving instance DecidableEq for Except

namespace VpnSync

/-- Python exception kinds that the embedded code can raise.
attributeError models the AttributeError raised at sync.py line 158
(calling extend on a set), nameError the NameError raised at
bigquery_operations.py line 236 (the undefined name value), typeError
the TypeError raised by the log_sync call at sync.py lines 257-262. -/
inductive PyError where
  | attributeError : PyError
  | nameError : PyError
  | typeError : PyError
deriving DecidableEq, Repr

/-- The error_message field of the dictionary returned by sync:
either the literal message of the empty-source early return
(sync.py lines 87-93) or str(e) of a caught exception. -/
inductive ErrMsg where
  | noFilesFound : ErrMsg
  | pyExc : PyError → ErrMsg
deriving DecidableEq, Repr

/-- A Python datetime value: calendar fields, microseconds, and an
optional UTC offset in minutes (none models a timezone-naive value). -/
structure PyDatetime where
  year : Nat
  month : Nat
  day : Nat
  hour : Nat
  minute : Nat
  second : Nat
  microsecond : Nat
  utcOffsetMinutes : Option Int
deriving DecidableEq, Repr

/-- The timestamp-like inputs accepted by normalize_timestamp:
a native datetime, or a string parsed by pandas Timestamp. -/
inductive TsValue where
  | dt : PyDatetime → TsValue
  | isoString : String → TsValue
deriving DecidableEq, Repr

def digitVal (c : Char) : Nat := c.toNat - 48

def digitsVal (l : List Char) : Nat := l.foldl (fun a c => a * 10 + digitVal c) 0

def allDigits (l : List Char) : Bool := l.all Char.isDigit

/-- Parse the trailing timezone designator of an ISO-8601 string:
nothing (naive), Z, or a signed HH:MM offset.  Returns the offset in
minutes, none meaning a naive datetime; the outer none is a parse
failure. -/
def parseOffset : List Char → Option (Option Int)
  | [] => some none
  | ['Z'] => some (some 0)
  | ['+', h1, h2, ':', m1, m2] =>
    if allDigits [h1, h2, m1, m2] then
      some (some ((digitsVal [h1, h2] * 60 + digitsVal [m1, m2] : Nat) : Int))
    else none
  | ['-', h1, h2, ':', m1, m2] =>
    if allDigits [h1, h2, m1, m2] then
      some (some (-((digitsVal [h1, h2] * 60 + digitsVal [m1, m2] : Nat) : Int)))
    else none
  | _ => none

/-- Parse an optional fractional-seconds part, returning the value in
microseconds (pandas keeps up to microsecond precision) and the rest of
the input. -/
def parseFrac : List Char → Option (Nat × List Char)
  | '.' :: rest =>
    let ds := rest.takeWhile Char.isDigit
    if ds = [] then none
    else some (digitsVal (ds.take 6) * 10 ^ (6 - (ds.take 6).length), rest.drop ds.length)
  | rest => some (0, rest)

/-- Field-wise ISO-8601 parsing as performed by pandas Timestamp on the
string inputs this program feeds it: date, T or space, time, optional
fraction, optional offset.  none models the parse error (pandas raises,
the spec calls it InvalidTimestamp). -/
def parseIso (s : String) : Option PyDatetime :=
  match s.data with
  | y1 :: y2 :: y3 :: y4 :: '-' :: mo1 :: mo2 :: '-' :: d1 :: d2 :: sep ::
      h1 :: h2 :: ':' :: mi1 :: mi2 :: ':' :: s1 :: s2 :: rest =>
    if (sep = 'T' ∨ sep = ' ') ∧
        allDigits [y1, y2, y3, y4, mo1, mo2, d1, d2, h1, h2, mi1, mi2, s1, s2] then
      match parseFrac rest with
      | none => none
      | some (micro, rest2) =>
        match parseOffset rest2 with
        | none => none
        | some off =>
          let mo := digitsVal [mo1, mo2]
          let d := digitsVal [d1, d2]
          let h := digitsVal [h1, h2]
          let mi := digitsVal [mi1, mi2]
          let sec := digitsVal [s1, s2]
          if 1 ≤ mo ∧ mo ≤ 12 ∧ 1 ≤ d ∧ d ≤ 31 ∧ h ≤ 23 ∧ mi ≤ 59 ∧ sec ≤ 59 then
            some ⟨digitsVal [y1, y2, y3, y4], mo, d, h, mi, sec, micro, off⟩
          else none
    else none
  | _ => none

/-- utils.py lines 25-26: if dt.tzinfo is not None, dt.replace(tzinfo=None).
The calendar fields, including microseconds, are kept as they are. -/
def stripTzinfo (d : PyDatetime) : PyDatetime :=
  if d.utcOffsetMinutes.isSome then { d with utcOffsetMinutes := none } else d

/-- utils.py lines 10-28, normalize_timestamp: a datetime is taken as
is, anything else goes through pandas Timestamp parsing; then the
timezone info, when present, is dropped.  none models the parse
exception escaping. -/
def normalize_timestamp : TsValue → Option PyDatetime
  | TsValue.dt d => some (stripTzinfo d)
  | TsValue.isoString s => (parseIso s).map stripTzinfo

/-- Seconds into the day of the instant a PyDatetime denotes, in UTC
(meaningful here for values sharing one calendar date): wall-clock
seconds minus the UTC offset. -/
def utcSecondsIntoDay (d : PyDatetime) : Int :=
  ((d.hour * 3600 + d.minute * 60 + d.second : Nat) : Int) - (d.utcOffsetMinutes.getD 0) * 60

/-! ## Snapshots and the set-diff classifier (sync.py lines 96-175) -/

/-- Keys of a snapshot built as a Python dict from a list of
(relative path, normalized timestamp) pairs. -/
def keysOf (l : List (String × Int)) : Finset String := (l.map Prod.fst).toFinset

/-- Timestamp lookup of such a snapshot.  A Python dict keeps the last
assignment for a repeated key, hence the reversed lookup; keys outside
the snapshot are never consulted by the classifier. -/
def tsOf (l : List (String × Int)) : String → Int :=
  fun k => ((l.reverse).lookup k).getD 0

/-- sync.py line 140: to_add = vpn_paths - bq_paths. -/
def to_add (vpnPaths bqPaths : Finset String) : Finset String := vpnPaths \ bqPaths

/-- sync.py line 143: to_delete = bq_paths - vpn_paths. -/
def to_delete (vpnPaths bqPaths : Finset String) : Finset String := bqPaths \ vpnPaths

/-- sync.py lines 146-150: to_update before reconciliation, the common
keys whose normalized timestamps differ (exact comparison). -/
def toUpdatePre (vpnPaths bqPaths : Finset String) (vpnTs bqTs : String → Int) :
    Finset String :=
  (vpnPaths ∩ bqPaths).filter fun k => vpnTs k ≠ bqTs k

/-- sync.py line 155: gcs_orphans = (gcs_paths - bq_paths) - vpn_paths. -/
def gcsOrphans (vpnPaths bqPaths gcsPaths : Finset String) : Finset String :=
  (gcsPaths \ bqPaths) \ vpnPaths

/-- sync.py line 168: bq_missing_gcs = (bq_paths - gcs_paths) & vpn_paths. -/
def bqMissingGcs (vpnPaths bqPaths gcsPaths : Finset String) : Finset String :=
  (bqPaths \ gcsPaths) ∩ vpnPaths

/-- The action sets of one run, after deduplication (sync.py 174-175). -/
structure ActionSets where
  toAdd : Finset String
  toDelete : Finset String
  toUpdate : Finset String
deriving DecidableEq

/-- sync.py lines 136-175, the set-diff classifier.  When gcs_orphans is
nonempty, line 158 calls extend on to_delete, which is a Python set
(line 143), so an AttributeError is raised there; otherwise the
bq_missing_gcs keys are appended to the to_update list (line 171) and
both collections are deduplicated (lines 174-175), i.e. a set union. -/
def classify (vpnPaths bqPaths gcsPaths : Finset String) (vpnTs bqTs : String → Int) :
    Except PyError ActionSets :=
  if (gcsOrphans vpnPaths bqPaths gcsPaths).Nonempty then
    Except.error PyError.attributeError
  else
    Except.ok
      ⟨to_add vpnPaths bqPaths, to_delete vpnPaths bqPaths,
        toUpdatePre vpnPaths bqPaths vpnTs bqTs ∪ bqMissingGcs vpnPaths bqPaths gcsPaths⟩

/-- The keys of keys(S) ∪ keys(M) that no action set touches. -/
def untouched (vpnPaths bqPaths : Finset String) (A : ActionSets) : Finset String :=
  (vpnPaths ∪ bqPaths) \ (A.toAdd ∪ A.toDelete ∪ A.toUpdate)

/-- How many of the four classes (to_add, to_delete, to_update,
untouched) a key belongs to. -/
def membershipCount (A : ActionSets) (U : Finset String) (k : String) : Nat :=
  (if k ∈ A.toAdd then 1 else 0) + (if k ∈ A.toDelete then 1 else 0) +
    (if k ∈ A.toUpdate then 1 else 0) + (if k ∈ U then 1 else 0)

/-! ## Action executor (sync.py lines 210-444) and BigQuery write paths -/

/-- Per-run collaborator oracles: which per-key GCS calls succeed,
whether the batched BigQuery delete raises, the configured
SYNC_USE_JSONL_THRESHOLD, and whether BIGQUERY_LOG_TABLE_ID is set. -/
structure SyncDeps where
  uploadOk : String → Bool
  gcsDeleteOk : String → Bool
  bqDeleteFails : Bool
  jsonlThreshold : Nat
  logTableConfigured : Bool

/-- bigquery_operations.py lines 220-265, _insert_via_jsonl: writing any
row evaluates normalize_timestamp(value) where the name value is
undefined (line 236), so a nonempty row list raises NameError before
anything is uploaded or loaded; an empty list writes no rows and the
empty load succeeds.  A row list (one dict with file_path and
updated_at per key) is modelled by its key set, since the row contents
never influence the observable outcome. -/
def insertViaJsonl (fileData : Finset String) : Except PyError Unit :=
  if fileData = ∅ then Except.ok ()
  else Except.error PyError.nameError

/-- bigquery_operations.py lines 169-201, insert_files: empty input
returns at once; the JSONL path is taken when use_jsonl is set and the
batch reaches SYNC_USE_JSONL_THRESHOLD, otherwise the direct DataFrame
load (modelled as succeeding) is used. -/
def insert_files (fileData : Finset String) (useJsonl : Bool) (threshold : Nat) :
    Except PyError Unit :=
  if fileData = ∅ then Except.ok ()
  else if useJsonl = true ∧ threshold ≤ fileData.card then insertViaJsonl fileData
  else Except.ok ()

/-- bigquery_operations.py lines 313-376, update_files: stage the rows
in a temporary table via _insert_via_jsonl, then merge by key.  On
success the merged keys are returned; the staging failure propagates
before the merge query runs. -/
def update_files (fileData : Finset String) : Except PyError (Finset String) :=
  if fileData = ∅ then Except.ok ∅
  else
    match insertViaJsonl fileData with
    | Except.error e => Except.error e
    | Except.ok _ => Except.ok fileData

/-- Result of the Add phase: the boolean returned by _add_files, the
keys whose GCS upload succeeded, and the keys actually written to the
metadata table. -/
structure AddOutcome where
  phaseOk : Bool
  uploaded : Finset String
  inserted : Finset String
deriving DecidableEq

/-- sync.py lines 274-344, _add_files: upload every file to GCS first;
when some upload failed and none succeeded, fail without touching
BigQuery; otherwise insert only the successfully uploaded keys
(use_jsonl is always passed as True), catching an insert exception as a
failed phase, and report success exactly when every key made it. -/
def addFiles (toAddSet : Finset String) (_vpnTs : String → Int) (deps : SyncDeps) :
    AddOutcome :=
  if toAddSet = ∅ then ⟨true, ∅, ∅⟩
  else
    let su := toAddSet.filter fun k => deps.uploadOk k
    let failures := (toAddSet.filter fun k => ¬ deps.uploadOk k).card
    if 0 < failures ∧ su = ∅ then ⟨false, su, ∅⟩
    else
      match insert_files su true deps.jsonlThreshold with
      | Except.error _ => ⟨false, su, ∅⟩
      | Except.ok _ => ⟨decide (su.card = toAddSet.card), su, su⟩

/-- Result of the Delete phase: the boolean returned by _delete_files,
the keys removed from the metadata table, and the keys whose GCS delete
call reported success. -/
structure DeleteOutcome where
  phaseOk : Bool
  bqDeleted : Finset String
  gcsDeleted : Finset String
deriving DecidableEq

/-- sync.py lines 346-383, _delete_files: delete from BigQuery first
(a raised error is logged and GCS deletion continues), then from GCS
per key; success exactly when every GCS delete succeeded. -/
def deleteFiles (toDeleteSet : Finset String) (deps : SyncDeps) : DeleteOutcome :=
  if toDeleteSet = ∅ then ⟨true, ∅, ∅⟩
  else
    let bqDel := if deps.bqDeleteFails then ∅ else toDeleteSet
    let gcsDel := toDeleteSet.filter fun k => deps.gcsDeleteOk k
    ⟨decide (gcsDel.card = toDeleteSet.card), bqDel, gcsDel⟩

/-- Result of the Update phase: the boolean returned by _update_files,
the keys re-uploaded to GCS, and the keys whose metadata row was merged. -/
structure UpdateOutcome where
  phaseOk : Bool
  uploaded : Finset String
  merged : Finset String
deriving DecidableEq

/-- sync.py lines 385-444, _update_files: re-upload first; when some
upload succeeded, run update_files on those keys, a raised error making
the phase fail; report success exactly when every key was uploaded. -/
def updateFiles (toUpdateSet : Finset String) (_vpnTs : String → Int) (deps : SyncDeps) :
    UpdateOutcome :=
  if toUpdateSet = ∅ then ⟨true, ∅, ∅⟩
  else
    let su := toUpdateSet.filter fun k => deps.uploadOk k
    if su ≠ ∅ then
      match update_files su with
      | Except.error _ => ⟨false, su, ∅⟩
      | Except.ok merged => ⟨decide (su.card = toUpdateSet.card), su, merged⟩
    else ⟨decide (su.card = toUpdateSet.card), su, ∅⟩

/-! ## Run logging (sync.py lines 252-264, bigquery_operations.py 378-434) -/

/-- The positional-or-keyword parameters of BigQueryManager.log_sync
after self (bigquery_operations.py lines 378-388). -/
def logSyncParams : List String :=
  ["dataset_id", "log_table_id", "sync_date", "files_added", "files_deleted",
    "files_updated", "success", "error_message"]

/-- The call at sync.py lines 257-262 passes seven positional arguments
(dataset, log table, start time, end time, and the three counters). -/
def logSyncCallPositionalArgs : Nat := 7

/-- The same call also passes success and error_message by keyword. -/
def logSyncCallKeywordArgs : List String := ["success", "error_message"]

/-- Python call binding: a call raises TypeError when more positional
arguments are given than parameters exist, or when a keyword argument
names a parameter already bound positionally. -/
def callBindsOk (params : List String) (nPos : Nat) (kw : List String) : Bool :=
  nPos ≤ params.length && kw.all fun k => !((params.take nPos).contains k)

/-- The outcome of the log_sync call made by sync: the seventh
positional argument lands on the parameter success, which the call also
passes by keyword, so binding fails with TypeError on every call. -/
def logSyncCall : Except PyError Unit :=
  if callBindsOk logSyncParams logSyncCallPositionalArgs logSyncCallKeywordArgs then
    Except.ok ()
  else Except.error PyError.typeError

/-- Rows appended to the log table by the finally block of sync
(lines 252-264): one on a successful log_sync call, none when the call
raises (the exception is caught and only warned about), none when no
log table is configured. -/
def logRowsAppendedOf (configured : Bool) : Nat :=
  if configured then
    match logSyncCall with
    | Except.ok _ => 1
    | Except.error _ => 0
  else 0

/-! ## The sync run (sync.py lines 54-272) -/

/-- The dictionary returned by sync together with the observable
effects of the run: which phases ran and what they did, and how many
rows reached the log table. -/
structure SyncResult where
  success : Bool
  filesAdded : Nat
  filesDeleted : Nat
  filesUpdated : Nat
  errorMessage : Option ErrMsg
  dryRun : Bool
  deletePhase : Option DeleteOutcome
  addPhase : Option AddOutcome
  updatePhase : Option UpdateOutcome
  logRowsAppended : Nat
deriving DecidableEq

/-- The body of VPNSynchronizer.sync with the log-row count of the
finally block passed in: the empty-source early return (lines 82-93),
snapshot building, the classifier (an exception reaching the top-level
handler at lines 241-250 yields a failed result with zero counters),
the counters taken from the planned action sets (lines 186-188), the
dry-run and nothing-to-do early returns, and the delete, add, update
phases in that order. -/
def syncBody (vpnFiles bqRows : List (String × Int)) (gcsList : List String)
    (deps : SyncDeps) (dryRun : Bool) (lr : Nat) : SyncResult :=
  if vpnFiles.isEmpty then
    ⟨false, 0, 0, 0, some ErrMsg.noFilesFound, false, none, none, none, lr⟩
  else
    match classify (keysOf vpnFiles) (keysOf bqRows) gcsList.toFinset
        (tsOf vpnFiles) (tsOf bqRows) with
    | Except.error e =>
      ⟨false, 0, 0, 0, some (ErrMsg.pyExc e), false, none, none, none, lr⟩
    | Except.ok A =>
      if dryRun then
        ⟨true, A.toAdd.card, A.toDelete.card, A.toUpdate.card, none, true, none, none, none, lr⟩
      else if A.toAdd.card = 0 ∧ A.toDelete.card = 0 ∧ A.toUpdate.card = 0 then
        ⟨true, 0, 0, 0, none, false, none, none, none, lr⟩
      else
        ⟨true, A.toAdd.card, A.toDelete.card, A.toUpdate.card, none, false,
          if 0 < A.toDelete.card then some (deleteFiles A.toDelete deps) else none,
          if 0 < A.toAdd.card then some (addFiles A.toAdd (tsOf vpnFiles) deps) else none,
          if 0 < A.toUpdate.card then some (updateFiles A.toUpdate (tsOf vpnFiles) deps) else none,
          lr⟩

/-- VPNSynchronizer.sync: the body above, with the finally block
attempting exactly one log_sync call when a log table is configured. -/
def sync (vpnFiles bqRows : List (String × Int)) (gcsList : List String)
    (deps : SyncDeps) (dryRun : Bool) : SyncResult :=
  syncBody vpnFiles bqRows gcsList deps dryRun
    (logRowsAppendedOf deps.logTableConfigured)

end VpnSync

namespace VpnSync

/-! ## Claims about the timestamp normalizer -/

/-- Claim C8, counterexample: the two strings denote the same instant,
but normalize_timestamp returns different values for them, because
utils.py only strips the tzinfo instead of converting to a common zone. -/
theorem c8_counterexample :
    normalize_timestamp (TsValue.isoString "2024-01-01T10:00:00+02:00") ≠
      normalize_timestamp (TsValue.isoString "2024-01-01T08:00:00Z") := by decide

/-- Claim C8 as amended: normalize_timestamp drops the timezone offset
while keeping the wall-clock fields, so the +02:00 input normalizes to
a naive 10:00:00 and the Z input to a naive 08:00:00 — unequal values,
although the parsed inputs denote the same instant (both 08:00:00 UTC
of the same date). -/
theorem c8_normalize_strips_offset :
    normalize_timestamp (TsValue.isoString "2024-01-01T10:00:00+02:00") =
      some ⟨2024, 1, 1, 10, 0, 0, 0, none⟩ ∧
    normalize_timestamp (TsValue.isoString "2024-01-01T08:00:00Z") =
      some ⟨2024, 1, 1, 8, 0, 0, 0, none⟩ ∧
    (parseIso "2024-01-01T10:00:00+02:00").map utcSecondsIntoDay =
      (parseIso "2024-01-01T08:00:00Z").map utcSecondsIntoDay := by
  refine ⟨by decide, by decide, by decide⟩

/-- Claim C9: normalize_timestamp is claimed (also by its own
docstring, second precision) to truncate to whole seconds; on a naive
datetime carrying 500000 microseconds the code returns the value
unchanged, sub-second component included. -/
theorem c9_microseconds_survive :
    normalize_timestamp (TsValue.dt ⟨2024, 1, 1, 0, 0, 0, 500000, none⟩) =
      some ⟨2024, 1, 1, 0, 0, 0, 500000, none⟩ ∧
    (⟨2024, 1, 1, 0, 0, 0, 500000, none⟩ : PyDatetime).microsecond ≠ 0 := by decide

/-! ## Claims about the classifier -/

/-- Claim C5, counterexample: with a configured tolerance of 5 seconds
and timestamps 0 and 1 for the one common key, the claimed equivalence
(membership in to_update iff the absolute drift reaches the tolerance)
fails: the drift is below tolerance yet the classifier selects the key,
since sync.py lines 147-150 compare for exact inequality and never read
the tolerance. -/
theorem c5_counterexample :
    ¬ (("a.txt" ∈ toUpdatePre {"a.txt"} {"a.txt"} (fun _ => (0 : Int)) fun _ => (1 : Int)) ↔
      (5 : Int) ≤ |(0 : Int) - (1 : Int)|) := by decide

/-- Claim C5 as amended: before the step-4 adjustments a key is in
to_update exactly when it is common to both snapshots and its
timestamps differ, i.e. the absolute drift is positive — the exact
comparison of sync.py lines 147-150; the configured
SYNC_TIME_TOLERANCE_SECONDS is not consulted (toUpdatePre takes no
tolerance input, as the source reads no tolerance). -/
theorem c5_exact_mismatch (vp bp : Finset String) (vt bt : String → Int) (k : String) :
    k ∈ toUpdatePre vp bp vt bt ↔ k ∈ vp ∧ k ∈ bp ∧ 0 < |vt k - bt k| := by
  simp [toUpdatePre, Finset.mem_filter, Finset.mem_inter, abs_pos, sub_ne_zero, and_assoc]

/-! ## Claims about whole runs -/

/-- Claim C10: a run whose source-tree snapshot is empty returns a
failed outcome with zero counts and the no-files error message, runs no
delete, add or update phase, whatever the metadata-table and blob-store
snapshots hold. -/
theorem c10_empty_source_failed_outcome (bqRows : List (String × Int))
    (gcsList : List String) (deps : SyncDeps) (dryRun : Bool) :
    sync [] bqRows gcsList deps dryRun =
      ⟨false, 0, 0, 0, some ErrMsg.noFilesFound, false, none, none, none,
        logRowsAppendedOf deps.logTableConfigured⟩ := rfl

/-- Every control path of syncBody carries the log-row count of the
finally block through unchanged. -/
theorem syncBody_logRows (vpnFiles bqRows : List (String × Int)) (gcsList : List String)
    (deps : SyncDeps) (dryRun : Bool) (lr : Nat) :
    (syncBody vpnFiles bqRows gcsList deps dryRun lr).logRowsAppended = lr := by
  unfold syncBody
  split
  · rfl
  · split
    · rfl
    · split
      · rfl
      · split
        · rfl
        · rfl

/-- Claim C4: the spec requires exactly one RunOutcome row per run, but
the call at sync.py lines 257-262 hands log_sync seven positional
arguments (including the sync end time), so its seventh parameter
success is bound twice — positionally and by the success keyword — and
every call raises TypeError; the finally block catches it, and zero
rows ever reach the log table, on every run. -/
theorem c4_log_row_never_appended :
    logSyncCall = Except.error PyError.typeError ∧
    ∀ (vpnFiles bqRows : List (String × Int)) (gcsList : List String)
      (deps : SyncDeps) (dryRun : Bool),
      (sync vpnFiles bqRows gcsList deps dryRun).logRowsAppended = 0 := by
  refine ⟨by decide, fun v b g d r => ?_⟩
  have h0 : logRowsAppendedOf d.logTableConfigured = 0 := by
    cases hc : d.logTableConfigured <;> decide
  rw [sync, syncBody_logRows, h0]

/-- Claim C2: one file to add, its upload succeeds, and the configured
SYNC_USE_JSONL_THRESHOLD is 1.  The claim says the inserted key set
equals the upload-success key set, but the insert goes through
_insert_via_jsonl, which raises NameError on its undefined name value,
so nothing is inserted although the upload succeeded, and the phase
returns False. -/
theorem c2_upload_succeeds_insert_fails :
    addFiles {"a.txt"} (fun _ => 0) ⟨fun _ => true, fun _ => true, false, 1, true⟩ =
      ⟨false, {"a.txt"}, ∅⟩ ∧
    ({"a.txt"} : Finset String) ≠ ∅ := by decide

/-- The run of claim C3: three files to add starting from empty
metadata and blob store, the upload of c.txt fails, the other two
succeed, and the add batch of two stays below the JSONL threshold of
ten, so the direct DataFrame insert lands. -/
def c3run : SyncResult :=
  sync [("a.txt", 1), ("b.txt", 1), ("c.txt", 1)] [] []
    ⟨fun k => decide (k ≠ "c.txt"), fun _ => true, false, 10, true⟩ false

/-- Claim C3, counterexample: with 2 of 3 uploads succeeding, the
dictionary returned by sync reports files_added = 3 — the planned
count len(to_add) assigned at sync.py lines 186-188 and returned
unchanged at lines 266-272 — not the count of files actually added. -/
theorem c3_counterexample : c3run.filesAdded = 3 ∧ c3run.filesAdded ≠ 2 := by decide

/-- Claim C3 as amended: in that run only the 2 uploaded files are
inserted into metadata, the add phase reports failure (partial), and
the failed key c.txt is in neither the add-success list nor the
inserted keys — but the returned files_added is 3, the planned count,
and the overall success flag stays true. -/
theorem c3_partial_add_reports_planned_count :
    c3run =
      ⟨true, 3, 0, 0, none, false, none,
        some ⟨false, {"a.txt", "b.txt"}, {"a.txt", "b.txt"}⟩, none, 0⟩ ∧
    "c.txt" ∉ ({"a.txt", "b.txt"} : Finset String) := by decide

/-- Claim C6, counterexample: the blob store holds a key absent from
both other snapshots, but the source snapshot is empty, so sync takes
the empty-source early return (sync.py lines 82-93) and never reaches
the reconciliation step — the failed outcome carries the no-files
message, not a caught AttributeError as the claim states for every
such input. -/
theorem c6_counterexample :
    (gcsOrphans (keysOf ([] : List (String × Int))) (keysOf ([] : List (String × Int)))
      (["x.txt"] : List String).toFinset).Nonempty ∧
    (sync [] [] ["x.txt"] ⟨fun _ => true, fun _ => true, false, 10, true⟩ false).errorMessage =
      some ErrMsg.noFilesFound ∧
    (sync [] [] ["x.txt"] ⟨fun _ => true, fun _ => true, false, 10, true⟩ false).errorMessage ≠
      some (ErrMsg.pyExc PyError.attributeError) := by decide

/-- Claim C6 as amended: whenever the source snapshot is non-empty and
the blob store holds at least one key absent from both the metadata and
the source snapshots, line 158 calls extend on the set to_delete, the
resulting AttributeError is caught by the top-level handler, and the
run returns success = False with zero counts, no delete, add or update
phase executed — so orphan blobs are never scheduled for deletion. -/
theorem c6_orphans_raise_attribute_error (vpnFiles bqRows : List (String × Int))
    (gcsList : List String) (deps : SyncDeps) (hv : vpnFiles ≠ [])
    (ho : (gcsOrphans (keysOf vpnFiles) (keysOf bqRows) gcsList.toFinset).Nonempty) :
    classify (keysOf vpnFiles) (keysOf bqRows) gcsList.toFinset
        (tsOf vpnFiles) (tsOf bqRows) = Except.error PyError.attributeError ∧
    sync vpnFiles bqRows gcsList deps false =
      ⟨false, 0, 0, 0, some (ErrMsg.pyExc PyError.attributeError), false, none, none, none,
        logRowsAppendedOf deps.logTableConfigured⟩ := by
  have hcl : classify (keysOf vpnFiles) (keysOf bqRows) gcsList.toFinset
      (tsOf vpnFiles) (tsOf bqRows) = Except.error PyError.attributeError := by
    unfold classify
    rw [if_pos ho]
  refine ⟨hcl, ?_⟩
  cases vpnFiles with
  | nil => exact absurd rfl hv
  | cons p ps =>
    rw [sync]
    unfold syncBody
    rw [hcl]
    rfl

/-- Witness for claim C6: one source file, empty metadata, one orphan
blob x.txt. -/
theorem c6_witness :
    classify (keysOf [("a.txt", 0)]) (keysOf ([] : List (String × Int)))
        (["x.txt"] : List String).toFinset (tsOf [("a.txt", 0)])
        (tsOf ([] : List (String × Int))) = Except.error PyError.attributeError ∧
    sync [("a.txt", 0)] [] ["x.txt"] ⟨fun _ => true, fun _ => true, false, 10, true⟩ false =
      ⟨false, 0, 0, 0, some (ErrMsg.pyExc PyError.attributeError), false, none, none, none,
        logRowsAppendedOf
          (⟨fun _ => true, fun _ => true, false, 10, true⟩ : SyncDeps).logTableConfigured⟩ :=
  c6_orphans_raise_attribute_error _ _ _ _ (by decide) (by decide)

/-- Claim C1: for every action-set triple the classifier phase
produces — that is, whenever classify returns instead of raising, which
covers the step-4 adjustments: the orphan-blob addition to to_delete is
then empty and the blob-missing-for-tracked keys are unioned into
to_update — every key of keys(S) ∪ keys(M) lies in exactly one of
to_add, to_delete, to_update or untouched, and to_delete meets neither
to_add nor to_update. -/
theorem c1_actionsets_partition (vp bp gp : Finset String) (vt bt : String → Int)
    (A : ActionSets) (h : classify vp bp gp vt bt = Except.ok A) :
    (∀ k ∈ vp ∪ bp, membershipCount A (untouched vp bp A) k = 1) ∧
    A.toDelete ∩ A.toAdd = ∅ ∧ A.toDelete ∩ A.toUpdate = ∅ := by
  unfold classify at h
  split at h
  · exact absurd h (by simp)
  rw [Except.ok.injEq] at h
  subst h
  have hUpd : ∀ k, k ∈ toUpdatePre vp bp vt bt ∪ bqMissingGcs vp bp gp →
      k ∈ vp ∧ k ∈ bp := by
    intro k hk
    rcases Finset.mem_union.mp hk with hk | hk
    · exact Finset.mem_inter.mp (Finset.mem_filter.mp hk).1
    · rcases Finset.mem_inter.mp hk with ⟨hk1, hk2⟩
      exact ⟨hk2, (Finset.mem_sdiff.mp hk1).1⟩
  refine ⟨?_, ?_, ?_⟩
  · intro k hk
    by_cases hv : k ∈ vp <;> by_cases hb : k ∈ bp
    · have h1 : k ∉ to_add vp bp := by simp [to_add, hb]
      have h2 : k ∉ to_delete vp bp := by simp [to_delete, hv]
      by_cases hu : k ∈ toUpdatePre vp bp vt bt ∪ bqMissingGcs vp bp gp
      · have hU : k ∉ untouched vp bp ⟨to_add vp bp, to_delete vp bp,
            toUpdatePre vp bp vt bt ∪ bqMissingGcs vp bp gp⟩ := by
          intro hc
          exact (Finset.mem_sdiff.mp hc).2 (by simp [hu])
        simp only [membershipCount]
        rw [if_neg h1, if_neg h2, if_pos hu, if_neg hU]
      · have hU : k ∈ untouched vp bp ⟨to_add vp bp, to_delete vp bp,
            toUpdatePre vp bp vt bt ∪ bqMissingGcs vp bp gp⟩ := by
          refine Finset.mem_sdiff.mpr ⟨hk, ?_⟩
          rw [Finset.mem_union, not_or] at hu
          simp only [Finset.mem_union, not_or]
          exact ⟨⟨h1, h2⟩, hu⟩
        simp only [membershipCount]
        rw [if_neg h1, if_neg h2, if_neg hu, if_pos hU]
    · have h1 : k ∈ to_add vp bp := Finset.mem_sdiff.mpr ⟨hv, hb⟩
      have h2 : k ∉ to_delete vp bp := by simp [to_delete, hv]
      have h3 : k ∉ toUpdatePre vp bp vt bt ∪ bqMissingGcs vp bp gp :=
        fun hc => hb (hUpd k hc).2
      have hU : k ∉ untouched vp bp ⟨to_add vp bp, to_delete vp bp,
          toUpdatePre vp bp vt bt ∪ bqMissingGcs vp bp gp⟩ := by
        intro hc
        exact (Finset.mem_sdiff.mp hc).2 (by simp [h1])
      simp only [membershipCount]
      rw [if_pos h1, if_neg h2, if_neg h3, if_neg hU]
    · have h1 : k ∉ to_add vp bp := by simp [to_add, hv]
      have h2 : k ∈ to_delete vp bp := Finset.mem_sdiff.mpr ⟨hb, hv⟩
      have h3 : k ∉ toUpdatePre vp bp vt bt ∪ bqMissingGcs vp bp gp :=
        fun hc => hv (hUpd k hc).1
      have hU : k ∉ untouched vp bp ⟨to_add vp bp, to_delete vp bp,
          toUpdatePre vp bp vt bt ∪ bqMissingGcs vp bp gp⟩ := by
        intro hc
        exact (Finset.mem_sdiff.mp hc).2 (by simp [h2])
      simp only [membershipCount]
      rw [if_neg h1, if_pos h2, if_neg h3, if_neg hU]
    · exact absurd hk (by simp [hv, hb])
  · refine Finset.eq_empty_iff_forall_not_mem.mpr fun k hk => ?_
    rcases Finset.mem_inter.mp hk with ⟨hd, ha⟩
    exact (Finset.mem_sdiff.mp hd).2 (Finset.mem_sdiff.mp ha).1
  · refine Finset.eq_empty_iff_forall_not_mem.mpr fun k hk => ?_
    rcases Finset.mem_inter.mp hk with ⟨hd, hu⟩
    exact (Finset.mem_sdiff.mp hd).2 (hUpd k hu).1

/-- Witness for claim C1: one source-only key, one metadata-only key,
one blob that metadata also tracks (no orphans, so classify returns). -/
theorem c1_witness :
    classify {"a.txt"} {"b.txt"} {"b.txt"} (fun _ => (0 : Int)) (fun _ => (0 : Int)) =
      Except.ok ⟨{"a.txt"}, {"b.txt"}, ∅⟩ ∧
    ((∀ k ∈ ({"a.txt"} : Finset String) ∪ {"b.txt"},
        membershipCount ⟨{"a.txt"}, {"b.txt"}, ∅⟩
          (untouched {"a.txt"} {"b.txt"} ⟨{"a.txt"}, {"b.txt"}, ∅⟩) k = 1) ∧
      (⟨{"a.txt"}, {"b.txt"}, (∅ : Finset String)⟩ : ActionSets).toDelete ∩
        (⟨{"a.txt"}, {"b.txt"}, ∅⟩ : ActionSets).toAdd = ∅ ∧
      (⟨{"a.txt"}, {"b.txt"}, (∅ : Finset String)⟩ : ActionSets).toDelete ∩
        (⟨{"a.txt"}, {"b.txt"}, ∅⟩ : ActionSets).toUpdate = ∅) :=
  ⟨by decide,
    c1_actionsets_partition {"a.txt"} {"b.txt"} {"b.txt"} (fun _ => 0) (fun _ => 0)
      ⟨{"a.txt"}, {"b.txt"}, ∅⟩ (by decide)⟩

/-- Claim C7: serializing any nonempty row batch in _insert_via_jsonl
evaluates the undefined name value and raises NameError, so staging
always fails: update_files raises before its merge query for every
nonempty update set, the sync-level update phase therefore always
returns False with no key merged, and the add-phase metadata insert
fails whenever the batch reaches the JSONL threshold. -/
theorem c7_staged_insert_always_raises :
    (∀ fileData : Finset String, fileData ≠ ∅ →
      insertViaJsonl fileData = Except.error PyError.nameError) ∧
    (∀ fileData : Finset String, fileData ≠ ∅ →
      update_files fileData = Except.error PyError.nameError) ∧
    (∀ (tu : Finset String) (ts : String → Int) (deps : SyncDeps), tu ≠ ∅ →
      (updateFiles tu ts deps).phaseOk = false ∧ (updateFiles tu ts deps).merged = ∅) ∧
    (∀ (fileData : Finset String) (threshold : Nat), fileData ≠ ∅ →
      threshold ≤ fileData.card →
      insert_files fileData true threshold = Except.error PyError.nameError) := by
  have p1 : ∀ fileData : Finset String, fileData ≠ ∅ →
      insertViaJsonl fileData = Except.error PyError.nameError := by
    intro s hs
    unfold insertViaJsonl
    rw [if_neg hs]
  have p2 : ∀ fileData : Finset String, fileData ≠ ∅ →
      update_files fileData = Except.error PyError.nameError := by
    intro s hs
    unfold update_files
    rw [if_neg hs, p1 s hs]
  refine ⟨p1, p2, ?_, ?_⟩
  · intro tu ts deps htu
    simp only [updateFiles]
    rw [if_neg htu]
    by_cases hsu : tu.filter (fun k => deps.uploadOk k = true) = ∅
    · rw [if_neg (not_not_intro hsu)]
      refine ⟨?_, rfl⟩
      simp only [hsu, Finset.card_empty, decide_eq_false_iff_not]
      exact fun he => htu (Finset.card_eq_zero.mp he.symm)
    · rw [if_pos hsu, p2 _ hsu]
      exact ⟨rfl, rfl⟩
  · intro s t hs hle
    unfold insert_files
    rw [if_neg hs, if_pos ⟨rfl, hle⟩]
    exact p1 s hs

/-- Witness for claim C7: a one-row batch, and an update and an add
phase over the single key a.txt with a threshold of 1. -/
theorem c7_witness :
    insertViaJsonl {"a.txt"} = Except.error PyError.nameError ∧
    update_files {"a.txt"} = Except.error PyError.nameError ∧
    ((updateFiles {"a.txt"} (fun _ => 0)
        ⟨fun _ => true, fun _ => true, false, 10, true⟩).phaseOk = false ∧
      (updateFiles {"a.txt"} (fun _ => 0)
        ⟨fun _ => true, fun _ => true, false, 10, true⟩).merged = ∅) ∧
    insert_files {"a.txt"} true 1 = Except.error PyError.nameError :=
  ⟨c7_staged_insert_always_raises.1 _ (by decide),
    c7_staged_insert_always_raises.2.1 _ (by decide),
    c7_staged_insert_always_raises.2.2.1 _ _ _ (by decide),
    c7_staged_insert_always_raises.2.2.2 _ _ (by decide) (by decide)⟩

end VpnSync
